import Mathlib

/-!
Shallow embedding of the card-session mock `src/test/libs/MFRC522.h` of
TonUINO-TNG.  Bytes are `Nat` values below 256, 32-bit words are `Nat`
values below 2 ^ 32, byte arrays are `List Nat`, and the member variables
of the `MFRC522` class form the record `MFRC522State`.  Each member
function becomes a Lean function from the old state (plus its arguments)
to its return value paired with the new state.
-/

namespace MFRC522

/-- Return codes, from the `StatusCode` enum of MFRC522.h. -/
inductive StatusCode where
  | STATUS_OK
  | STATUS_ERROR
  | STATUS_COLLISION
  | STATUS_TIMEOUT
  | STATUS_NO_ROOM
  | STATUS_INTERNAL_ERROR
  | STATUS_INVALID
  | STATUS_CRC_WRONG
  | STATUS_MIFARE_NACK
deriving DecidableEq

/-- PICC types, from the `PICC_Type` enum of MFRC522.h. -/
inductive PICC_Type where
  | PICC_TYPE_UNKNOWN
  | PICC_TYPE_ISO_14443_4
  | PICC_TYPE_ISO_18092
  | PICC_TYPE_MIFARE_MINI
  | PICC_TYPE_MIFARE_1K
  | PICC_TYPE_MIFARE_4K
  | PICC_TYPE_MIFARE_UL
  | PICC_TYPE_MIFARE_PLUS
  | PICC_TYPE_MIFARE_DESFIRE
  | PICC_TYPE_TNP3XXX
  | PICC_TYPE_NOT_COMPLETE
deriving DecidableEq

/-- `PICC_CMD_MF_AUTH_KEY_A = 0x60` from the `PICC_Command` enum. -/
def PICC_CMD_MF_AUTH_KEY_A : Nat := 0x60

/-- `buffferSizeRead = 18`, the buffer size of the read path (sic, the
triple f is the source's spelling). -/
def buffferSizeRead : Nat := 18

/-- `buffferSizeWrite = 16`, the buffer size of the write path. -/
def buffferSizeWrite : Nat := 16

/-- The member variables of the `MFRC522` mock: the call-tracking flags,
the `uid` struct (fields `size`, `uidByte[10]`, `sak`), the presence flag
`card_is_in` and the stored block `t_buffer` (18 bytes). -/
structure MFRC522State where
  called_Init : Bool
  called_AntennaOff : Bool
  called_SoftPowerDown : Bool
  called_PICC_RequestA : Bool
  called_PICC_HaltA : Bool
  called_PCD_Authenticate : Bool
  uid_size : Nat
  uid_uidByte : List Nat
  uid_sak : Nat
  card_is_in : Bool
  t_buffer : List Nat
deriving DecidableEq

/-- The state of a freshly constructed (static-storage, hence
zero-initialized) `MFRC522` object: all flags false, uid cleared,
no card in, `t_buffer` zero-filled. -/
def init_state : MFRC522State :=
  { called_Init := false
  , called_AntennaOff := false
  , called_SoftPowerDown := false
  , called_PICC_RequestA := false
  , called_PICC_HaltA := false
  , called_PCD_Authenticate := false
  , uid_size := 0
  , uid_uidByte := List.replicate 10 0
  , uid_sak := 0
  , card_is_in := false
  , t_buffer := List.replicate 18 0 }

/-- `PICC_RequestA` of MFRC522.h: succeeds (setting `called_PICC_RequestA`)
exactly when no authentication is active and a card is in; otherwise it
clears `called_PICC_RequestA` and returns `STATUS_ERROR`. -/
def PICC_RequestA (s : MFRC522State) : StatusCode × MFRC522State :=
  if s.called_PCD_Authenticate = false ∧ s.card_is_in = true then
    (StatusCode.STATUS_OK, { s with called_PICC_RequestA := true })
  else
    (StatusCode.STATUS_ERROR, { s with called_PICC_RequestA := false })

/-- `PCD_Authenticate` of MFRC522.h: succeeds (setting
`called_PCD_Authenticate`) exactly when the command is
`PICC_CMD_MF_AUTH_KEY_A`, the block address is 7, the key's first byte is
`0xFF` and the member uid has been populated (`uid.size != 0`, callers
pass the member `uid`); otherwise it clears the flag and fails. -/
def PCD_Authenticate (command blockAddr : Nat) (key : List Nat)
    (s : MFRC522State) : StatusCode × MFRC522State :=
  if command = PICC_CMD_MF_AUTH_KEY_A ∧ blockAddr = 7 ∧
      key.getD 0 0 = 0xff ∧ s.uid_size ≠ 0 then
    (StatusCode.STATUS_OK, { s with called_PCD_Authenticate := true })
  else
    (StatusCode.STATUS_ERROR, { s with called_PCD_Authenticate := false })

/-- `PCD_StopCrypto1` of MFRC522.h: clears `called_PCD_Authenticate`. -/
def PCD_StopCrypto1 (s : MFRC522State) : MFRC522State :=
  { s with called_PCD_Authenticate := false }

/-- `MIFARE_Read` of MFRC522.h.  Returns `STATUS_ERROR` (leaving the
caller's buffer alone) when `!called_PCD_Authenticate && blockAddr != 4 &&
*bufferSize != buffferSizeRead`; otherwise copies the 18 bytes of
`t_buffer` into the caller's buffer and returns `STATUS_OK`.  The result
is (status, caller's buffer after the call, state after the call). -/
def MIFARE_Read (blockAddr bufferSize : Nat) (buffer : List Nat)
    (s : MFRC522State) : StatusCode × List Nat × MFRC522State :=
  if s.called_PCD_Authenticate = false ∧ blockAddr ≠ 4 ∧
      bufferSize ≠ buffferSizeRead then
    (StatusCode.STATUS_ERROR, buffer, s)
  else
    (StatusCode.STATUS_OK, s.t_buffer.take buffferSizeRead ++
      buffer.drop buffferSizeRead, s)

/-- `MIFARE_Write` of MFRC522.h.  Returns `STATUS_ERROR` (leaving
`t_buffer` alone) when `!called_PCD_Authenticate && blockAddr != 4 &&
bufferSize != buffferSizeWrite`; otherwise copies the first 16 bytes of
the caller's buffer into `t_buffer` (its last 2 bytes keep their old
values) and returns `STATUS_OK`. -/
def MIFARE_Write (blockAddr bufferSize : Nat) (buffer : List Nat)
    (s : MFRC522State) : StatusCode × MFRC522State :=
  if s.called_PCD_Authenticate = false ∧ blockAddr ≠ 4 ∧
      bufferSize ≠ buffferSizeWrite then
    (StatusCode.STATUS_ERROR, s)
  else
    (StatusCode.STATUS_OK,
      { s with t_buffer := buffer.take buffferSizeWrite ++
          s.t_buffer.drop buffferSizeWrite })

/-- `PICC_GetType` of MFRC522.h: masks the top bit of the SAK byte off
and matches the remaining value; unmatched values give
`PICC_TYPE_UNKNOWN`. -/
def PICC_GetType (sak : Nat) : PICC_Type :=
  let m := sak &&& 0x7F
  if m = 0x04 then PICC_Type.PICC_TYPE_NOT_COMPLETE
  else if m = 0x09 then PICC_Type.PICC_TYPE_MIFARE_MINI
  else if m = 0x08 then PICC_Type.PICC_TYPE_MIFARE_1K
  else if m = 0x18 then PICC_Type.PICC_TYPE_MIFARE_4K
  else if m = 0x00 then PICC_Type.PICC_TYPE_MIFARE_UL
  else if m = 0x10 ∨ m = 0x11 then PICC_Type.PICC_TYPE_MIFARE_PLUS
  else if m = 0x01 then PICC_Type.PICC_TYPE_TNP3XXX
  else if m = 0x20 then PICC_Type.PICC_TYPE_ISO_14443_4
  else if m = 0x40 then PICC_Type.PICC_TYPE_ISO_18092
  else PICC_Type.PICC_TYPE_UNKNOWN

/-- `PICC_ReadCardSerial` of MFRC522.h: when a card is in and
`called_PICC_RequestA` is set, clears that flag, populates the member uid
(`size = 4`, `uidByte[i] = i + 1` for the first 4 bytes, `sak = 0x08`) and
returns true; otherwise returns false and changes nothing. -/
def PICC_ReadCardSerial (s : MFRC522State) : Bool × MFRC522State :=
  if s.card_is_in = true ∧ s.called_PICC_RequestA = true then
    (true, { s with called_PICC_RequestA := false
                  , uid_size := 4
                  , uid_uidByte := [1, 2, 3, 4] ++ s.uid_uidByte.drop 4
                  , uid_sak := 0x08 })
  else
    (false, s)

/-- The 18-byte block that `card_in` of MFRC522.h builds from a record:
the four cookie bytes most-significant first, then version, folder, mode,
special, special2, then nine `0x00` bytes. -/
def card_in_buffer (cookie version folder mode special special2 : Nat) :
    List Nat :=
  [ (cookie &&& 0xff000000) >>> 24
  , (cookie &&& 0x00ff0000) >>> 16
  , (cookie &&& 0x0000ff00) >>> 8
  , (cookie &&& 0x000000ff) >>> 0
  , version
  , folder
  , mode
  , special
  , special2
  , 0x00, 0x00, 0x00, 0x00, 0x00, 0x00, 0x00, 0x00, 0x00 ]

/-- `card_in` of MFRC522.h: marks the card as in and copies the encoded
block into `t_buffer`. -/
def card_in (cookie version folder mode special special2 : Nat)
    (s : MFRC522State) : MFRC522State :=
  { s with card_is_in := true
         , t_buffer := card_in_buffer cookie version folder mode special special2 }

/-- `card_out` of MFRC522.h: clears the presence flag, `uid.size`,
`uid.sak` and `called_PICC_RequestA`. -/
def card_out (s : MFRC522State) : MFRC522State :=
  { s with card_is_in := false
         , uid_size := 0
         , uid_sak := 0
         , called_PICC_RequestA := false }

/-- The logical payload carried on a card: a 32-bit cookie and five
8-bit fields. -/
structure DataRecord where
  cookie : Nat
  version : Nat
  folder : Nat
  mode : Nat
  special : Nat
  special2 : Nat
deriving DecidableEq

/-- `card_decode` of MFRC522.h, applied to a block: reassembles the
cookie big-endian from bytes 0-3 and reads the five fields from
bytes 4-8. -/
def card_decode (buf : List Nat) : DataRecord :=
  { cookie := ((buf.getD 0 0) <<< 24) + ((buf.getD 1 0) <<< 16) +
      ((buf.getD 2 0) <<< 8) + ((buf.getD 3 0) <<< 0)
  , version := buf.getD 4 0
  , folder := buf.getD 5 0
  , mode := buf.getD 6 0
  , special := buf.getD 7 0
  , special2 := buf.getD 8 0 }

/-- Ending the session: card removal (`card_out`) together with
`PCD_StopCrypto1`, as the spec's `endSession`. -/
def endSession (s : MFRC522State) : MFRC522State :=
  PCD_StopCrypto1 (card_out s)

/-- An all-`0xFF` MIFARE key, as the tests present it (only the first
byte is inspected by the mock). -/
def keyFF : List Nat := [0xff, 0xff, 0xff, 0xff, 0xff, 0xff]

/-- The state after a card appears: `init_state` with `card_is_in`. -/
def state_card_present : MFRC522State :=
  { init_state with card_is_in := true }

/-- The state after a successful detect (`PICC_RequestA`). -/
def state_detected : MFRC522State := (PICC_RequestA state_card_present).2

/-- The state after a successful select (`PICC_ReadCardSerial`). -/
def state_selected : MFRC522State := (PICC_ReadCardSerial state_detected).2

/-- The state after a successful authenticate of block 7 with `keyFF`. -/
def state_authenticated : MFRC522State :=
  (PCD_Authenticate PICC_CMD_MF_AUTH_KEY_A 7 keyFF state_selected).2

/-- The 16-byte write block of the record
(cookie 0x12345678, version 1, folder 3, mode 1, special 0, special2 0). -/
def record_block : List Nat := (card_in_buffer 0x12345678 1 3 1 0 0).take 16

/-- The state after writing `record_block` into block 7 from
`state_authenticated`. -/
def state_written : MFRC522State :=
  (MIFARE_Write 7 buffferSizeWrite record_block state_authenticated).2

/-- A byte of `c` through mask-and-shift: masking `c` with `0xff`
shifted up by `k` and shifting the result down by `k` extracts the
byte `c / 2 ^ k % 256`. -/
theorem extract_byte (c k : Nat) :
    (c &&& (255 <<< k)) >>> k = c / 2 ^ k % 256 := by
  apply Nat.eq_of_testBit_eq
  intro j
  rw [← Nat.shiftRight_eq_div_pow, show (256 : Nat) = 2 ^ 8 from rfl,
      show (255 : Nat) = 2 ^ 8 - 1 from rfl]
  simp only [Nat.testBit_mod_two_pow, Nat.testBit_shiftRight, Nat.testBit_and,
    Nat.testBit_shiftLeft, Nat.testBit_two_pow_sub_one]
  by_cases hj : j < 8 <;> by_cases hb : c.testBit (k + j) <;>
    simp [hj, hb, Nat.le_add_right, Nat.add_sub_cancel_left]

/-- Byte 0 of the encoded cookie is its most significant byte. -/
theorem extract_byte0 (c : Nat) :
    (c &&& 0xff000000) >>> 24 = c / 2 ^ 24 % 256 := by
  have h := extract_byte c 24
  rw [Nat.shiftLeft_eq] at h
  norm_num at h ⊢
  exact h

/-- Byte 1 of the encoded cookie. -/
theorem extract_byte1 (c : Nat) :
    (c &&& 0x00ff0000) >>> 16 = c / 2 ^ 16 % 256 := by
  have h := extract_byte c 16
  rw [Nat.shiftLeft_eq] at h
  norm_num at h ⊢
  exact h

/-- Byte 2 of the encoded cookie. -/
theorem extract_byte2 (c : Nat) :
    (c &&& 0x0000ff00) >>> 8 = c / 2 ^ 8 % 256 := by
  have h := extract_byte c 8
  rw [Nat.shiftLeft_eq] at h
  norm_num at h ⊢
  exact h

/-- Byte 3 of the encoded cookie is its least significant byte. -/
theorem extract_byte3 (c : Nat) :
    (c &&& 0x000000ff) >>> 0 = c % 256 := by
  have h := extract_byte c 0
  rw [Nat.shiftLeft_eq] at h
  norm_num at h ⊢
  exact h

/-- C1 (counterexample): in the state reached by detect and select with
no authenticate, `MIFARE_Read` of block 7 with the standard 18-byte
buffer returns `STATUS_OK`, because the mock's guard is a conjunction
that also lets a matching buffer size through.  This refutes the claim
that read never succeeds without a prior successful authentication. -/
theorem C1_counterexample :
    state_selected.called_PCD_Authenticate = false ∧
    state_selected.uid_size ≠ 0 ∧
    (MIFARE_Read 7 buffferSizeRead (List.replicate 18 0) state_selected).1 =
      StatusCode.STATUS_OK := by
  decide

/-- C1 (amended): `MIFARE_Read`/`MIFARE_Write` return `STATUS_ERROR`
exactly when no authentication succeeded AND the block address is not 4
AND the buffer size differs from the expected one (18 for read, 16 for
write); equivalently they return `STATUS_OK` exactly when a prior
authentication succeeded, or the block address is 4, or the buffer size
matches the expected one.  A read never changes the machine state, a
failed read leaves the caller's buffer unchanged, and a failed write
leaves the machine state (so the stored block) unchanged. -/
theorem C1_read_write_guard (blockAddr bufferSize : Nat) (buffer : List Nat)
    (s : MFRC522State) :
    ((MIFARE_Read blockAddr bufferSize buffer s).1 = StatusCode.STATUS_OK ↔
      (s.called_PCD_Authenticate = true ∨ blockAddr = 4 ∨
        bufferSize = buffferSizeRead)) ∧
    ((MIFARE_Read blockAddr bufferSize buffer s).1 = StatusCode.STATUS_ERROR ↔
      (s.called_PCD_Authenticate = false ∧ blockAddr ≠ 4 ∧
        bufferSize ≠ buffferSizeRead)) ∧
    ((MIFARE_Write blockAddr bufferSize buffer s).1 = StatusCode.STATUS_OK ↔
      (s.called_PCD_Authenticate = true ∨ blockAddr = 4 ∨
        bufferSize = buffferSizeWrite)) ∧
    ((MIFARE_Write blockAddr bufferSize buffer s).1 = StatusCode.STATUS_ERROR ↔
      (s.called_PCD_Authenticate = false ∧ blockAddr ≠ 4 ∧
        bufferSize ≠ buffferSizeWrite)) ∧
    (MIFARE_Read blockAddr bufferSize buffer s).2.2 = s ∧
    ((MIFARE_Read blockAddr bufferSize buffer s).1 = StatusCode.STATUS_ERROR →
      (MIFARE_Read blockAddr bufferSize buffer s).2.1 = buffer) ∧
    ((MIFARE_Write blockAddr bufferSize buffer s).1 = StatusCode.STATUS_ERROR →
      (MIFARE_Write blockAddr bufferSize buffer s).2 = s) := by
  cases hb : s.called_PCD_Authenticate <;>
    by_cases h4 : blockAddr = 4 <;>
      by_cases hr : bufferSize = 18 <;>
        by_cases hw : bufferSize = 16 <;>
          simp_all [MIFARE_Read, MIFARE_Write, buffferSizeRead, buffferSizeWrite]

/-- C2: decoding the block produced by the `card_in` encoding returns
exactly the record that was encoded, for every representable record
(32-bit cookie, 8-bit fields). -/
theorem C2_roundtrip (r : DataRecord) (hc : r.cookie < 2 ^ 32)
    (hv : r.version < 256) (hf : r.folder < 256) (hm : r.mode < 256)
    (hs : r.special < 256) (hs2 : r.special2 < 256) :
    card_decode
      (card_in_buffer r.cookie r.version r.folder r.mode r.special r.special2) =
      r := by
  obtain ⟨c, v, f, m, sp, sp2⟩ := r
  simp only [card_decode, card_in_buffer, List.getD_cons_zero,
    List.getD_cons_succ, DataRecord.mk.injEq, and_true, true_and,
    and_self] at hc ⊢
  rw [extract_byte0, extract_byte1, extract_byte2, extract_byte3]
  simp only [Nat.shiftLeft_eq]
  omega

/-- C2 witness: the round trip at the record
(0x12345678, 1, 3, 1, 0, 0). -/
theorem C2_roundtrip_witness :
    card_decode (card_in_buffer 0x12345678 1 3 1 0 0) =
      { cookie := 0x12345678, version := 1, folder := 3
      , mode := 1, special := 0, special2 := 0 } :=
  C2_roundtrip
    { cookie := 0x12345678, version := 1, folder := 3
    , mode := 1, special := 0, special2 := 0 }
    (by decide) (by decide) (by decide) (by decide) (by decide) (by decide)

/-- C3 (counterexample): from the Authenticated state
(`called_PCD_Authenticate` set), calling `PCD_Authenticate` again with
the accepted parameters returns `STATUS_OK`, refuting the claim that a
call from Authenticated returns a failure status. -/
theorem C3_counterexample :
    state_authenticated.called_PCD_Authenticate = true ∧
    (PCD_Authenticate PICC_CMD_MF_AUTH_KEY_A 7 keyFF state_authenticated).1 =
      StatusCode.STATUS_OK := by
  decide

/-- C3 (amended): `PCD_Authenticate` never returns `STATUS_OK` unless
the card identifier has been populated; from Absent or Detected
(`uid.size = 0` and the authenticated flag clear) every call returns
`STATUS_ERROR` and leaves the session state unchanged. -/
theorem C3_auth_requires_uid (command blockAddr : Nat) (key : List Nat)
    (s : MFRC522State) (h1 : s.uid_size = 0)
    (h2 : s.called_PCD_Authenticate = false) :
    (PCD_Authenticate command blockAddr key s).1 = StatusCode.STATUS_ERROR ∧
    (PCD_Authenticate command blockAddr key s).2 = s := by
  have hcond : ¬(command = PICC_CMD_MF_AUTH_KEY_A ∧ blockAddr = 7 ∧
      key.getD 0 0 = 0xff ∧ s.uid_size ≠ 0) := by
    intro hcontra
    exact hcontra.2.2.2 h1
  rw [PCD_Authenticate, if_neg hcond]
  refine ⟨rfl, ?_⟩
  cases s
  simp_all

/-- C3 witness: authenticating from the initial (Absent) state with the
otherwise-accepted parameters fails and changes nothing. -/
theorem C3_auth_requires_uid_witness :
    (PCD_Authenticate PICC_CMD_MF_AUTH_KEY_A 7 keyFF init_state).1 =
      StatusCode.STATUS_ERROR ∧
    (PCD_Authenticate PICC_CMD_MF_AUTH_KEY_A 7 keyFF init_state).2 =
      init_state :=
  C3_auth_requires_uid PICC_CMD_MF_AUTH_KEY_A 7 keyFF init_state
    (by decide) (by decide)

/-- C4: for every record with a 32-bit cookie, the encoded block is
exactly: bytes 0-3 the cookie most-significant byte first, byte 4 the
version, byte 5 the folder, byte 6 the mode, byte 7 special, byte 8
special2, and bytes 9-17 (the end of the 18-byte buffer) zero. -/
theorem C4_layout (cookie version folder mode special special2 : Nat)
    (hc : cookie < 2 ^ 32) :
    card_in_buffer cookie version folder mode special special2 =
      [ cookie / 2 ^ 24, cookie / 2 ^ 16 % 256, cookie / 2 ^ 8 % 256
      , cookie % 256, version, folder, mode, special, special2
      , 0, 0, 0, 0, 0, 0, 0, 0, 0 ] := by
  simp only [card_in_buffer, extract_byte0, extract_byte1, extract_byte2,
    extract_byte3, List.cons.injEq, and_true, true_and, and_self]
  omega

/-- C4 witness: the layout at the record (0x12345678, 1, 3, 1, 0, 0). -/
theorem C4_layout_witness :
    card_in_buffer 0x12345678 1 3 1 0 0 =
      [ 0x12345678 / 2 ^ 24, 0x12345678 / 2 ^ 16 % 256
      , 0x12345678 / 2 ^ 8 % 256, 0x12345678 % 256
      , 1, 3, 1, 0, 0, 0, 0, 0, 0, 0, 0, 0, 0, 0 ] :=
  C4_layout 0x12345678 1 3 1 0 0 (by decide)

set_option maxRecDepth 100000 in
/-- C5: classification is a total function of the capability byte, with
0x08 the MIFARE 1K class, 0x18 the MIFARE 4K class, 0x00 the Ultralight
class, 0x04 the incomplete-selection class, 0xFF Unknown; and every byte
either classifies as Unknown or matches, after masking, one of the
listed cases. -/
theorem C5_classify :
    PICC_GetType 0x08 = PICC_Type.PICC_TYPE_MIFARE_1K ∧
    PICC_GetType 0x18 = PICC_Type.PICC_TYPE_MIFARE_4K ∧
    PICC_GetType 0x00 = PICC_Type.PICC_TYPE_MIFARE_UL ∧
    PICC_GetType 0x04 = PICC_Type.PICC_TYPE_NOT_COMPLETE ∧
    PICC_GetType 0xFF = PICC_Type.PICC_TYPE_UNKNOWN ∧
    ∀ s : Fin 256, PICC_GetType s.val = PICC_Type.PICC_TYPE_UNKNOWN ∨
      (s.val &&& 0x7F) ∈
        [0x04, 0x09, 0x08, 0x18, 0x00, 0x10, 0x11, 0x01, 0x20, 0x40] := by
  decide

set_option maxRecDepth 100000 in
/-- C6: the scenario detect, select (capability byte 0x08), authenticate
of block 7 with an all-0xFF key, write of the record
(0x12345678, 1, 3, 1, 0, 0) to block 7, read of block 7: every step
succeeds and the read block decodes to the record written. -/
theorem C6_scenario :
    (PICC_RequestA state_card_present).1 = StatusCode.STATUS_OK ∧
    (PICC_ReadCardSerial state_detected).1 = true ∧
    state_selected.uid_sak = 0x08 ∧
    PICC_GetType state_selected.uid_sak = PICC_Type.PICC_TYPE_MIFARE_1K ∧
    (PCD_Authenticate PICC_CMD_MF_AUTH_KEY_A 7 keyFF state_selected).1 =
      StatusCode.STATUS_OK ∧
    (MIFARE_Write 7 buffferSizeWrite record_block state_authenticated).1 =
      StatusCode.STATUS_OK ∧
    (MIFARE_Read 7 buffferSizeRead (List.replicate 18 0) state_written).1 =
      StatusCode.STATUS_OK ∧
    card_decode
      (MIFARE_Read 7 buffferSizeRead (List.replicate 18 0) state_written).2.1 =
      { cookie := 0x12345678, version := 1, folder := 3
      , mode := 1, special := 0, special2 := 0 } := by
  decide

/-- C7: ending the session (`card_out` together with `PCD_StopCrypto1`)
from any state clears the presence flag, `uid.size`, `uid.sak`, the
request-acknowledged flag and the authenticated flag, and doing it twice
yields the same state as doing it once. -/
theorem C7_endSession (s : MFRC522State) :
    (endSession s).card_is_in = false ∧
    (endSession s).uid_size = 0 ∧
    (endSession s).uid_sak = 0 ∧
    (endSession s).called_PICC_RequestA = false ∧
    (endSession s).called_PCD_Authenticate = false ∧
    endSession (endSession s) = endSession s := by
  simp [endSession, card_out, PCD_StopCrypto1]

/-- C8: for block address 4, `MIFARE_Read` and `MIFARE_Write` return
`STATUS_OK` in every state and for every buffer size: the block-4
authentication bypass is present in the source. -/
theorem C8_block4_bypass (bufferSize : Nat) (buffer : List Nat)
    (s : MFRC522State) :
    (MIFARE_Read 4 bufferSize buffer s).1 = StatusCode.STATUS_OK ∧
    (MIFARE_Write 4 bufferSize buffer s).1 = StatusCode.STATUS_OK := by
  simp [MIFARE_Read, MIFARE_Write]

set_option maxRecDepth 100000 in
/-- C9: classification ignores the top bit of the capability byte
(`classify (s | 0x80) = classify s` and `classify (s & 0x7F) =
classify s` for every byte), and every byte either classifies as
Unknown or matches one of the cases after masking. -/
theorem C9_ignores_top_bit :
    ∀ s : Fin 256,
      PICC_GetType (s.val ||| 0x80) = PICC_GetType s.val ∧
      PICC_GetType (s.val &&& 0x7F) = PICC_GetType s.val ∧
      (PICC_GetType s.val = PICC_Type.PICC_TYPE_UNKNOWN ∨
        (s.val &&& 0x7F) ∈
          [0x04, 0x09, 0x08, 0x18, 0x00, 0x10, 0x11, 0x01, 0x20, 0x40]) := by
  decide

/-- C10: `PICC_RequestA` reports success exactly when no authentication
is active and a card is in; otherwise (in particular whenever the
authenticated flag is set, even with a card present) it returns
`STATUS_ERROR` and clears the request-acknowledged flag. -/
theorem C10_detect_auth_guard (s : MFRC522State) :
    ((PICC_RequestA s).1 = StatusCode.STATUS_OK ↔
      (s.called_PCD_Authenticate = false ∧ s.card_is_in = true)) ∧
    ((PICC_RequestA s).1 = StatusCode.STATUS_OK ∨
      ((PICC_RequestA s).1 = StatusCode.STATUS_ERROR ∧
        (PICC_RequestA s).2.called_PICC_RequestA = false)) := by
  by_cases h : s.called_PCD_Authenticate = false ∧ s.card_is_in = true <;>
    simp [PICC_RequestA, h]

end MFRC522
